import Mathlib

/-!
Verification of the diagram-to-backend code generator
(src/frontend/src/uml/codegen/JavaSpringGenerator.ts).

The definitions below are a shallow embedding of the generator: each Lean
definition mirrors one TypeScript function of the source, keeping its name
where Lean allows it.  Strings are Lean strings; the JavaScript regular
expression character classes used by the source are modelled by explicit
character predicates.  The Unicode general-category predicates are
implemented over the Basic Latin and Latin-1 Supplement blocks, which cover
every code point exercised by the definitions and theorems in this file.
-/

/-- Mirrors the exported interface ClassDefinition of the source. -/
structure ClassDefinition where
  name : String
  attributes : List String
  methods : List String

/-- The four relation kinds of the exported interface RelationDefinition. -/
inductive RelationType where
  | ONE_TO_ONE
  | ONE_TO_MANY
  | MANY_TO_ONE
  | MANY_TO_MANY
deriving DecidableEq

/-- Mirrors the exported interface RelationDefinition (the optional
display-only fields are not consumed by the generator and are omitted). -/
structure RelationDefinition where
  source : String
  target : String
  type : RelationType
  bidirectional : Bool

/-- Result type of parseAttribute. -/
structure ParsedAttr where
  type : String
  name : String
deriving DecidableEq

/-- The whitespace class of JavaScript (its \\s and the trim set), modelled
over the Basic Latin and Latin-1 blocks exercised here. -/
def isJsSpace (c : Char) : Bool :=
  c = ' ' || c = '\t' || c = '\n' || c = '\r' || c = '\x0b' || c = '\x0c'
  || c = '\xa0'

/-- Models String.prototype.trim. -/
def jsTrim (s : String) : String :=
  String.mk (((s.data.dropWhile isJsSpace).reverse.dropWhile isJsSpace).reverse)

/-- Models String.prototype.endsWith. -/
def strEndsWith (s pat : String) : Bool :=
  pat.data.isSuffixOf s.data

/-- Models slice(0, -n): drop the last n characters. -/
def strDropRight (s : String) (n : Nat) : String :=
  String.mk (s.data.take (s.data.length - n))

/-- Mirrors safeStr: trim, and fall back when the trimmed string is empty
(the source's falsy check v || fallback). -/
def safeStr (s : String) (fallback : String) : String :=
  let v := jsTrim s
  if v = "" then fallback else v

/-- The reserved-word list of toCamelCase. -/
def reservedWords : List String :=
  ["class", "interface", "abstract", "public", "private", "protected",
   "static", "final", "volatile", "transient", "synchronized", "native",
   "strictfp"]

/-- Models charAt(0).toLowerCase() + slice(1); Char.toLower lower-cases
exactly the ASCII range, which covers the identifiers handled here. -/
def lowerFirst (s : String) : String :=
  match s.data with
  | [] => ""
  | c :: cs => String.mk (c.toLower :: cs)

/-- Models charAt(0).toUpperCase() + slice(1). -/
def upperFirst (s : String) : String :=
  match s.data with
  | [] => ""
  | c :: cs => String.mk (c.toUpper :: cs)

/-- Mirrors toCamelCase of the source. -/
def toCamelCase (str : String) : String :=
  let s := safeStr str ""
  if s = "" then "value"
  else
    let out := lowerFirst s
    if out ∈ reservedWords then out ++ "Entity" else out

/-- Mirrors toPascal of the source. -/
def toPascal (str : String) : String :=
  let s := safeStr str ""
  if s = "" then "Value" else upperFirst s

/-- Models the regex test [^aeiou]y$ used by toPlural: the string ends in a
lower-case y preceded by a character that is not a lower-case vowel. -/
def consonantY (s : String) : Bool :=
  match s.data.reverse with
  | 'y' :: c :: _ => !(['a', 'e', 'i', 'o', 'u'].contains c)
  | _ => false

/-- Mirrors toPlural of the source, rule for rule and in the same order. -/
def toPlural (str : String) : String :=
  let s := safeStr str ""
  if s = "" then "items"
  else if strEndsWith s "s" || strEndsWith s "sh" || strEndsWith s "ch"
       || strEndsWith s "x" || strEndsWith s "z" then s ++ "es"
  else if consonantY s then strDropRight s 1 ++ "ies"
  else if strEndsWith s "f" then strDropRight s 1 ++ "ves"
  else if strEndsWith s "fe" then strDropRight s 2 ++ "ves"
  else s ++ "s"

/-- Unicode general category Letter, the class \p\x7bL\x7d of the source's
sanitizing regex, implemented over the Basic Latin and Latin-1 Supplement
blocks; no definition or theorem below evaluates it above U+00FF. -/
def isUnicodeLetter (c : Char) : Bool :=
  decide ('A' ≤ c ∧ c ≤ 'Z') || decide ('a' ≤ c ∧ c ≤ 'z')
  || c = 'ª' || c = 'µ' || c = 'º'
  || decide ('À' ≤ c ∧ c ≤ 'Ö') || decide ('Ø' ≤ c ∧ c ≤ 'ö')
  || (decide ('ø' ≤ c) && c.val ≤ 0xFF)

/-- Unicode general category Number, the class \p\x7bN\x7d of the source's
sanitizing regex, implemented over the same blocks. -/
def isUnicodeNumber (c : Char) : Bool :=
  c.isDigit || ['²', '³', '¹', '¼', '½', '¾'].contains c

/-- A character kept unchanged by sanitizeIdentifier: the complement of the
source's character class [^\p\x7bL\x7d\p\x7bN\x7d_$]. -/
def isIdChar (c : Char) : Bool :=
  isUnicodeLetter c || isUnicodeNumber c || c = '_' || c = '$'

/-- Models the global per-character regex replacement
replace(/[^\p\x7bL\x7d\p\x7bN\x7d_$]/gu, "_"). -/
def jsReplaceNonIdChars (s : String) : String :=
  String.mk (s.data.map fun c => if isIdChar c then c else '_')

/-- Models the regex test ^\d (an ASCII digit at the start). -/
def startsWithDigit (s : String) : Bool :=
  match s.data with
  | [] => false
  | c :: _ => c.isDigit

/-- Mirrors sanitizeIdentifier of the source: the fallback is substituted
before the replacement, so it too is cleaned. -/
def sanitizeIdentifier (raw : String) (fallback : String) : String :=
  let s := jsReplaceNonIdChars (safeStr raw fallback)
  if startsWithDigit s then "_" ++ s else s

/-- The primitive keywords of isJavaType. -/
def javaPrimitives : List String :=
  ["int", "long", "double", "float", "boolean", "byte", "short", "char",
   "void"]

/-- The common class names of isJavaType. -/
def javaCommonTypes : List String :=
  ["String", "Integer", "Long", "Double", "Float", "Boolean", "BigDecimal",
   "Date", "LocalDate", "LocalDateTime", "UUID"]

/-- Models the JavaScript word-character class \\w, that is [A-Za-z0-9_]. -/
def isWordChar (c : Char) : Bool :=
  c.isAlphanum || c = '_'

/-- Models the regex test ^[A-Z]\\w*$. -/
def isCapitalizedWord (s : String) : Bool :=
  match s.data with
  | [] => false
  | c :: cs => c.isUpper && cs.all isWordChar

/-- Mirrors isJavaType of the source. -/
def isJavaType (token : String) : Bool :=
  let t := jsTrim token
  javaPrimitives.contains t || javaCommonTypes.contains t
  || isCapitalizedWord t

/-- The fixed synonym table of mapToJavaType, in the source's entry order. -/
def typeMap : List (String × String) :=
  [("int", "Integer"), ("Int", "Integer"), ("integer", "Integer"),
   ("Integer", "Integer"),
   ("long", "Long"), ("Long", "Long"),
   ("string", "String"), ("String", "String"), ("text", "String"),
   ("Text", "String"),
   ("double", "Double"), ("Double", "Double"), ("float", "Float"),
   ("Float", "Float"),
   ("decimal", "BigDecimal"), ("Decimal", "BigDecimal"),
   ("money", "BigDecimal"), ("currency", "BigDecimal"),
   ("bool", "Boolean"), ("Bool", "Boolean"), ("boolean", "Boolean"),
   ("Boolean", "Boolean"),
   ("date", "LocalDate"), ("Date", "LocalDate"),
   ("datetime", "LocalDateTime"), ("DateTime", "LocalDateTime"),
   ("timestamp", "LocalDateTime"),
   ("uuid", "UUID"), ("UUID", "UUID"), ("guid", "UUID")]

/-- The property names every plain JavaScript object inherits from
Object.prototype; bracket access on an object literal finds them through
the prototype chain when no own property shadows them. -/
def objectPrototypeMembers : List String :=
  ["constructor", "hasOwnProperty", "isPrototypeOf", "propertyIsEnumerable",
   "toLocaleString", "toString", "valueOf", "__proto__",
   "__defineGetter__", "__defineSetter__", "__lookupGetter__",
   "__lookupSetter__"]

/-- The text an inherited Object.prototype member prints as when the
generator later coerces it into a template string: the native-function
source text as V8 and SpiderMonkey render it.  The constructor member is
the Object constructor function, and __proto__ is the Object.prototype
object itself. -/
def objectProtoLeak (normalized : String) : String :=
  if normalized = "__proto__" then "[object Object]"
  else if normalized = "constructor" then
    "function Object() \x7b [native code] \x7d"
  else "function " ++ normalized ++ "() \x7b [native code] \x7d"

/-- Mirrors mapToJavaType: trim, look the token up, default to String.
The source reads typeMap[normalized] from a plain object literal, so the
access walks the prototype chain: a token naming an inherited
Object.prototype member yields that member, a truthy function (or, for
__proto__, an object), and the falsy default never applies.  The member is
not a string, and every later use of the result either interpolates it
into a template, where it prints as the leak text, or compares it with
strict equality against canonical type-name literals, which always fails
for a non-string; the model therefore returns the printed text directly.
The source's falsy default (typeMap[normalized] || "String") would also
replace an empty mapped value, hence the inner test. -/
def mapToJavaType (type : String) : String :=
  let normalized := jsTrim type
  match typeMap.lookup normalized with
  | some v => if v = "" then "String" else v
  | none =>
    if objectPrototypeMembers.contains normalized then
      objectProtoLeak normalized
    else "String"

/-- Splits a character list at the first colon, mirroring indexOf(":") with
slice(0, idx) and slice(idx + 1); none when no colon occurs. -/
def splitAtFirstColon : List Char → Option (List Char × List Char)
  | [] => none
  | c :: cs =>
    if c = ':' then some ([], cs)
    else (splitAtFirstColon cs).map fun p => (c :: p.1, p.2)

/-- Tokenizer accumulating the current word in reverse, used to model
split(/\\s+/).filter(Boolean). -/
def wsTokensAux : List Char → List Char → List (List Char)
  | [], cur => if cur.isEmpty then [] else [cur.reverse]
  | c :: cs, cur =>
    if isJsSpace c then
      if cur.isEmpty then wsTokensAux cs [] else cur.reverse :: wsTokensAux cs []
    else wsTokensAux cs (c :: cur)

/-- Models split(/\\s+/).filter(Boolean): the maximal whitespace-free words
of the string. -/
def jsSplitWsTokens (s : String) : List String :=
  (wsTokensAux s.data []).map String.mk

/-- Mirrors parseAttribute of the source, branch for branch: first the
colon form, then the two-token form, then the whole line as a name. -/
def parseAttribute (line : String) (index : Nat) : ParsedAttr :=
  let raw := safeStr line ""
  let fallback := "field_" ++ Nat.repr (index + 1)
  if raw = "" then ⟨"String", fallback⟩
  else
    match splitAtFirstColon raw.data with
    | some (left, right) =>
      let name := sanitizeIdentifier (jsTrim (String.mk left)) fallback
      let type := jsTrim (safeStr (String.mk right) "String")
      ⟨mapToJavaType type, toCamelCase name⟩
    | none =>
      match jsSplitWsTokens raw with
      | [t1, t2] =>
        if isJavaType t1 then
          ⟨mapToJavaType t1, toCamelCase (sanitizeIdentifier t2 fallback)⟩
        else ⟨"String", toCamelCase (sanitizeIdentifier raw fallback)⟩
      | _ => ⟨"String", toCamelCase (sanitizeIdentifier raw fallback)⟩

example : parseAttribute "nombre: string" 0 = ⟨"String", "nombre"⟩ := by decide
example : parseAttribute "int count" 0 = ⟨"Integer", "count"⟩ := by decide
example : parseAttribute "precio : money" 2 = ⟨"BigDecimal", "precio"⟩ := by
  decide
example : parseAttribute "  " 2 = ⟨"String", "field_3"⟩ := by decide
example : parseAttribute "solo nombre" 0 = ⟨"String", "solo_nombre"⟩ := by
  decide
example : parseAttribute "Foo bar" 0 = ⟨"String", "bar"⟩ := by decide
example : mapToJavaType " uuid " = "UUID" := by decide
example : mapToJavaType "varchar2" = "String" := by decide

/-- Models String.prototype.toLowerCase; Char.toLower lower-cases exactly
the ASCII range, which covers the names handled here. -/
def jsToLower (s : String) : String :=
  String.mk (s.data.map Char.toLower)

/-- One member emitted into an entity body by generateFields: the
identifier and type expression interpolated into the declaration, the
mappedBy, join-column and join-table arguments when the branch writes them,
and the rendered declaration text itself. -/
structure EmittedField where
  name : String
  javaType : String
  mappedBy : Option String
  joinColumn : Option String
  joinTable : Option String
  decl : String

/-- The accumulator of generateFields: the emitted members (the source's
lines, kept with their structure) and the usedFieldNames reservation set in
insertion order. -/
structure FieldAcc where
  fields : List EmittedField
  used : List String

/-- The @Column member template of the attribute loop. -/
def attrColumnDecl (type name : String) : String :=
  "    @Column(name = \"" ++ jsToLower name ++ "\")\n    private " ++ type
  ++ " " ++ name ++ ";"

/-- The @JsonIgnoreProperties line shared by every relation template. -/
def jsonIgnoreLine : String :=
  "    @JsonIgnoreProperties(\x7b\"hibernateLazyInitializer\", \"handler\"\x7d)\n"

/-- The owning ONE_TO_ONE member template. -/
def oneToOneOwningDecl (otherClass otherVar : String) : String :=
  "    @OneToOne(cascade = CascadeType.ALL, fetch = FetchType.LAZY)\n"
  ++ "    @JoinColumn(name = \"" ++ toCamelCase otherClass ++ "_id\")\n"
  ++ jsonIgnoreLine
  ++ "    private " ++ otherClass ++ " " ++ otherVar ++ ";"

/-- The inverse ONE_TO_ONE member template. -/
def oneToOneInverseDecl (otherClass otherVar : String) : String :=
  "    @OneToOne(mappedBy = \"" ++ otherVar ++ "\", fetch = FetchType.LAZY)\n"
  ++ jsonIgnoreLine
  ++ "    private " ++ otherClass ++ " " ++ otherVar ++ ";"

/-- The @ManyToOne member template; the source contains this same literal
text both in the MANY_TO_ONE owning branch and in the ONE_TO_MANY
target-side branch. -/
def manyToOneFieldDecl (otherClass otherVar : String) : String :=
  "    @ManyToOne(fetch = FetchType.LAZY)\n"
  ++ "    @JoinColumn(name = \"" ++ toCamelCase otherClass ++ "_id\")\n"
  ++ jsonIgnoreLine
  ++ "    private " ++ otherClass ++ " " ++ otherVar ++ ";"

/-- The inverse MANY_TO_ONE member template. -/
def manyToOneInverseDecl (className otherClass collNameFromOther : String) :
    String :=
  "    @OneToMany(mappedBy = \"" ++ toCamelCase className
  ++ "\", cascade = CascadeType.ALL, fetch = FetchType.LAZY)\n"
  ++ jsonIgnoreLine
  ++ "    private Set<" ++ otherClass ++ "> " ++ collNameFromOther
  ++ " = new HashSet<>();"

/-- The owning ONE_TO_MANY member template. -/
def oneToManyOwningDecl (thisVar otherClass otherVar : String) : String :=
  "    @OneToMany(mappedBy = \"" ++ thisVar
  ++ "\", cascade = CascadeType.ALL, fetch = FetchType.LAZY)\n"
  ++ jsonIgnoreLine
  ++ "    private Set<" ++ otherClass ++ "> " ++ toPlural otherVar
  ++ " = new HashSet<>();"

/-- The owning MANY_TO_MANY member template with its join table. -/
def manyToManyOwningDecl (className otherClass otherVar : String) : String :=
  "    @ManyToMany(fetch = FetchType.LAZY)\n"
  ++ "    @JoinTable(\n        name = \"" ++ jsToLower className ++ "_"
  ++ jsToLower otherClass ++ "\",\n        joinColumns = @JoinColumn(name = \""
  ++ toCamelCase className ++ "_id\"),\n"
  ++ "        inverseJoinColumns = @JoinColumn(name = \""
  ++ toCamelCase otherClass ++ "_id\")\n    )\n"
  ++ jsonIgnoreLine
  ++ "    private Set<" ++ otherClass ++ "> " ++ toPlural otherVar
  ++ " = new HashSet<>();"

/-- The inverse MANY_TO_MANY member template. -/
def manyToManyInverseDecl (otherClass otherVar : String) : String :=
  "    @ManyToMany(mappedBy = \"" ++ toPlural (toCamelCase otherClass)
  ++ "\", fetch = FetchType.LAZY)\n"
  ++ jsonIgnoreLine
  ++ "    private Set<" ++ otherClass ++ "> " ++ toPlural otherVar
  ++ " = new HashSet<>();"

/-- The attribute loop of generateFields: parse each line, skip names that
are already reserved or case-insensitively equal to id, otherwise reserve
the name and emit the @Column member. -/
def processAttrs (i : Nat) (attrs : List String) (acc : FieldAcc) : FieldAcc :=
  match attrs with
  | [] => acc
  | a :: rest =>
    let p := parseAttribute a i
    let acc' :=
      if p.name ∉ acc.used ∧ jsToLower p.name ≠ "id" then
        ⟨acc.fields ++ [⟨p.name, p.type, none, none, none,
           attrColumnDecl p.type p.name⟩],
         acc.used ++ [p.name]⟩
      else acc
    processAttrs (i + 1) rest acc'

/-- The relation loop body of generateFields for one incident relation:
compute the dedup candidate name, skip when it is already reserved,
otherwise reserve it and emit the member of the matching switch branch
(a branch without a push reserves the name but emits nothing). -/
def processRel (className thisVar : String) (acc : FieldAcc)
    (r : RelationDefinition) : FieldAcc :=
  let otherClass := if r.source = className then r.target else r.source
  let otherVar := toCamelCase otherClass
  let collNameFromOther := toPlural otherVar
  let relationFieldName :=
    if r.source = className then otherVar
    else
      match r.type with
      | .ONE_TO_MANY | .MANY_TO_MANY => collNameFromOther
      | _ => otherVar
  if relationFieldName ∈ acc.used then acc
  else
    let used' := acc.used ++ [relationFieldName]
    let emitted : List EmittedField :=
      match r.type with
      | .ONE_TO_ONE =>
        if r.source = className then
          [⟨otherVar, otherClass, none, some (toCamelCase otherClass ++ "_id"),
            none, oneToOneOwningDecl otherClass otherVar⟩]
        else if r.bidirectional then
          [⟨otherVar, otherClass, some otherVar, none, none,
            oneToOneInverseDecl otherClass otherVar⟩]
        else []
      | .MANY_TO_ONE =>
        if r.source = className then
          [⟨otherVar, otherClass, none, some (toCamelCase otherClass ++ "_id"),
            none, manyToOneFieldDecl otherClass otherVar⟩]
        else if r.bidirectional then
          [⟨collNameFromOther, "Set<" ++ otherClass ++ ">",
            some (toCamelCase className), none, none,
            manyToOneInverseDecl className otherClass collNameFromOther⟩]
        else []
      | .ONE_TO_MANY =>
        if r.source = className then
          [⟨toPlural otherVar, "Set<" ++ otherClass ++ ">", some thisVar,
            none, none, oneToManyOwningDecl thisVar otherClass otherVar⟩]
        else
          [⟨otherVar, otherClass, none, some (toCamelCase otherClass ++ "_id"),
            none, manyToOneFieldDecl otherClass otherVar⟩]
      | .MANY_TO_MANY =>
        if r.source = className then
          [⟨toPlural otherVar, "Set<" ++ otherClass ++ ">", none, none,
            some (jsToLower className ++ "_" ++ jsToLower otherClass),
            manyToManyOwningDecl className otherClass otherVar⟩]
        else if r.bidirectional then
          [⟨toPlural otherVar, "Set<" ++ otherClass ++ ">",
            some (toPlural (toCamelCase otherClass)), none, none,
            manyToManyInverseDecl otherClass otherVar⟩]
        else []
    ⟨acc.fields ++ emitted, used'⟩

/-- The members generateFields emits for one class: the id name is reserved
first, the attribute lines are processed in order, then every relation
whose source or target is the class. -/
def entityMembers (relations : List RelationDefinition)
    (cls : ClassDefinition) : List EmittedField :=
  let afterAttrs := processAttrs 0 cls.attributes ⟨[], ["id"]⟩
  let incident :=
    relations.filter fun r => r.source == cls.name || r.target == cls.name
  (incident.foldl (processRel cls.name (toCamelCase cls.name)) afterAttrs).fields

/-- Mirrors generateFields: the emitted member texts joined by blank lines
(the source's lines.filter(Boolean).join two-newline). -/
def generateFields (relations : List RelationDefinition)
    (cls : ClassDefinition) : String :=
  String.intercalate "\n\n"
    (((entityMembers relations cls).map (·.decl)).filter (· != ""))

/-- The field identifiers declared by the generated entity class, in
order: the fixed surrogate id member of the class template followed by the
members of generateFields. -/
def entityFieldNames (relations : List RelationDefinition)
    (cls : ClassDefinition) : List String :=
  "id" :: (entityMembers relations cls).map (·.name)

example :
    entityFieldNames [⟨"A", "B", .ONE_TO_MANY, false⟩] ⟨"A", ["bs"], []⟩
      = ["id", "bs", "bs"] := by decide
example :
    entityFieldNames [⟨"Id", "A", .ONE_TO_MANY, false⟩] ⟨"A", [], []⟩
      = ["id", "id"] := by decide
example :
    (entityMembers [⟨"Student", "Course", .MANY_TO_MANY, true⟩]
        ⟨"Student", [], []⟩).map (·.name) = ["courses"] := by decide
example :
    (entityMembers [⟨"Student", "Course", .MANY_TO_MANY, true⟩]
        ⟨"Course", [], []⟩).map (fun f => (f.name, f.mappedBy))
      = [("students", some "students")] := by decide
example :
    (entityMembers [⟨"Author", "Book", .ONE_TO_MANY, false⟩]
        ⟨"Book", [], []⟩).map (fun f => (f.name, f.javaType, f.joinColumn))
      = [("author", "Author", some "author_id")] := by decide

/-- A JavaScript value serialized by JSON.stringify in the generator: the
source builds plain objects of strings, numbers, booleans, arrays and
nested objects.  The source's number literals 1 and 1.0 denote the same
JavaScript number, modelled as the integer 1. -/
inductive Json where
  | str (s : String)
  | num (n : Int)
  | bool (b : Bool)
  | arr (elems : List Json)
  | obj (fields : List (String × Json))

/-- The indentation JSON.stringify(v, null, 2) puts before depth-d items. -/
def indentOf (d : Nat) : String :=
  String.mk (List.replicate (2 * d) ' ')

/-- Lower-case hexadecimal digit, for the \\u escapes of JSON.stringify. -/
def hexDigit (n : Nat) : Char :=
  if n < 10 then Char.ofNat ('0'.toNat + n) else Char.ofNat ('a'.toNat + (n - 10))

/-- The escaping JSON.stringify applies to one character of a string. -/
def jsonEscapeChar (c : Char) : String :=
  if c = '"' then "\\\""
  else if c = '\\' then "\\\\"
  else if c = '\x08' then "\\b"
  else if c = '\x0c' then "\\f"
  else if c = '\n' then "\\n"
  else if c = '\r' then "\\r"
  else if c = '\t' then "\\t"
  else if c.toNat < 32 then
    "\\u00" ++ String.mk [hexDigit (c.toNat / 16 % 16), hexDigit (c.toNat % 16)]
  else String.mk [c]

/-- A JSON string literal as JSON.stringify renders it. -/
def jsonQuote (s : String) : String :=
  "\"" ++ String.join (s.data.map jsonEscapeChar) ++ "\""

mutual
/-- JSON.stringify(v, null, 2) at nesting depth d: two-space indentation,
key-value pairs separated by a colon and one space, insertion order kept,
empty arrays and objects collapsed. -/
def Json.render : Json → Nat → String
  | .str s, _ => jsonQuote s
  | .num n, _ => Int.repr n
  | .bool b, _ => if b then "true" else "false"
  | .arr [], _ => "[]"
  | .arr (x :: xs), d =>
    "[\n" ++ String.intercalate ",\n" (Json.renderItems (x :: xs) (d + 1))
    ++ "\n" ++ indentOf d ++ "]"
  | .obj [], _ => "\x7b\x7d"
  | .obj (f :: fs), d =>
    "\x7b\n" ++ String.intercalate ",\n" (Json.renderFields (f :: fs) (d + 1))
    ++ "\n" ++ indentOf d ++ "\x7d"

/-- The rendered elements of an array, each on its own indented line. -/
def Json.renderItems : List Json → Nat → List String
  | [], _ => []
  | v :: vs, d => (indentOf d ++ v.render d) :: Json.renderItems vs d

/-- The rendered members of an object, each on its own indented line. -/
def Json.renderFields : List (String × Json) → Nat → List String
  | [], _ => []
  | (k, v) :: fs, d =>
    (indentOf d ++ jsonQuote k ++ ": " ++ v.render d) :: Json.renderFields fs d
end

/-- JSON.stringify(v, null, 2). -/
def jsonStringify2 (v : Json) : String :=
  v.render 0

/-- A JavaScript object-property assignment data[k] = v: an existing key
keeps its position and gets the new value, a new key is appended. -/
def jsObjInsert (fs : List (String × Json)) (k : String) (v : Json) :
    List (String × Json) :=
  if fs.any (fun kv => kv.1 == k) then
    fs.map fun kv => if kv.1 == k then (k, v) else kv
  else fs ++ [(k, v)]

/-- The switch of generateSampleRequestBody: the sample value assigned for
one resolved field, by its canonical Java type.  The source assigns the
number literal 1 for Integer and Long and 1.0 for Double and Float; both
are the JavaScript number one. -/
def sampleValueFor (type name : String) : Json :=
  if type = "String" then .str ("sample_" ++ name)
  else if type = "Integer" ∨ type = "Long" then .num 1
  else if type = "Double" ∨ type = "Float" then .num 1
  else if type = "Boolean" then .bool true
  else .str ("sample_" ++ name)

/-- The attribute loop of generateSampleRequestBody building the data
object. -/
def sampleBodyAux (i : Nat) (attrs : List String)
    (data : List (String × Json)) : List (String × Json) :=
  match attrs with
  | [] => data
  | a :: rest =>
    let p := parseAttribute a i
    sampleBodyAux (i + 1) rest (jsObjInsert data p.name (sampleValueFor p.type p.name))

/-- The data object of generateSampleRequestBody for one class. -/
def sampleBodyData (cls : ClassDefinition) : List (String × Json) :=
  sampleBodyAux 0 cls.attributes []

/-- Mirrors generateSampleRequestBody: the sample data object, stringified
with two-space indentation. -/
def generateSampleRequestBody (cls : ClassDefinition) : String :=
  jsonStringify2 (.obj (sampleBodyData cls))

/-- The request group generatePostmanCollection builds for one class. -/
def postmanClassItem (cls : ClassDefinition) : Json :=
  let className := toPascal cls.name
  let endpoint := toPlural (toCamelCase className)
  .obj
    [("name", .str (className ++ " CRUD")),
     ("item", .arr
       [.obj
         [("name", .str ("Get All " ++ toPlural className)),
          ("request", .obj
            [("method", .str "GET"),
             ("header", .arr
               [.obj [("key", .str "Accept"),
                      ("value", .str "application/json")]]),
             ("url", .obj
               [("raw", .str ("\x7b\x7bbase_url\x7d\x7d/api/" ++ endpoint)),
                ("host", .arr [.str "\x7b\x7bbase_url\x7d\x7d"]),
                ("path", .arr [.str "api", .str endpoint])])])],
        .obj
         [("name", .str ("Create " ++ className)),
          ("request", .obj
            [("method", .str "POST"),
             ("header", .arr
               [.obj [("key", .str "Content-Type"),
                      ("value", .str "application/json")],
                .obj [("key", .str "Accept"),
                      ("value", .str "application/json")]]),
             ("body", .obj
               [("mode", .str "raw"),
                ("raw", .str (generateSampleRequestBody cls))]),
             ("url", .obj
               [("raw", .str ("\x7b\x7bbase_url\x7d\x7d/api/" ++ endpoint)),
                ("host", .arr [.str "\x7b\x7bbase_url\x7d\x7d"]),
                ("path", .arr [.str "api", .str endpoint])])])]])]

/-- Mirrors generatePostmanCollection. -/
def generatePostmanCollection (classes : List ClassDefinition) : String :=
  jsonStringify2 (.obj
    [("info", .obj
      [("name", .str "Generated API"),
       ("description", .str "Colección generada automáticamente"),
       ("schema",
        .str "https://schema.getpostman.com/json/collection/v2.1.0/collection.json")]),
     ("item", .arr (classes.map postmanClassItem)),
     ("variable", .arr
       [.obj [("key", .str "base_url"),
              ("value", .str "http://localhost:8080"),
              ("type", .str "string")]])])

/-- Mirrors generatePostmanEnvironment.  The source reads the clock with
Date.now() while building the environment id; the reading is passed in
explicitly as now. -/
def generatePostmanEnvironment (now : Nat) : String :=
  jsonStringify2 (.obj
    [("id", .str (Nat.repr now ++ "-env")),
     ("name", .str "Generated Environment"),
     ("values", .arr
       [.obj [("key", .str "base_url"),
              ("value", .str "http://localhost:8080"),
              ("enabled", .bool true),
              ("type", .str "default")]]),
     ("_postman_variable_scope", .str "environment")])

example :
    sampleBodyData ⟨"Product", ["price: decimal"], []⟩
      = [("price", Json.str "sample_price")] := rfl
example :
    sampleBodyData ⟨"P", ["name: text", "count: int", "active: bool"], []⟩
      = [("name", Json.str "sample_name"), ("count", Json.num 1),
         ("active", Json.bool true)] := rfl
example :
    generatePostmanEnvironment 0 ≠ generatePostmanEnvironment 1 := by decide

/-- The accumulator of the generateDTO attribute loop: the kept scalar
fields, the usedFieldNames set and the imports set, both in insertion
order. -/
structure DtoAcc where
  fields : List ParsedAttr
  used : List String
  imports : List String

/-- Mirrors addTypeImport: the per-type import line added to the imports
set when the type needs one. -/
def addTypeImport (type : String) (imports : List String) : List String :=
  let add (s : String) := if s ∈ imports then imports else imports ++ [s]
  if type = "BigDecimal" then add "import java.math.BigDecimal;"
  else if type = "LocalDate" then add "import java.time.LocalDate;"
  else if type = "LocalDateTime" then add "import java.time.LocalDateTime;"
  else if type = "UUID" then add "import java.util.UUID;"
  else imports

/-- The attribute loop of generateDTO, with the same reservation test as
the entity's attribute loop. -/
def processDtoAttrs (i : Nat) (attrs : List String) (acc : DtoAcc) : DtoAcc :=
  match attrs with
  | [] => acc
  | a :: rest =>
    let p := parseAttribute a i
    let acc' :=
      if p.name ∉ acc.used ∧ jsToLower p.name ≠ "id" then
        ⟨acc.fields ++ [p], acc.used ++ [p.name], addTypeImport p.type acc.imports⟩
      else acc
    processDtoAttrs (i + 1) rest acc'

/-- The scalar fields generateDTO keeps for one class. -/
def dtoScalarFields (cls : ClassDefinition) : List ParsedAttr :=
  (processDtoAttrs 0 cls.attributes ⟨[], ["id"], []⟩).fields

/-- The import set generateDTO collects for one class. -/
def dtoImports (cls : ClassDefinition) : List String :=
  (processDtoAttrs 0 cls.attributes ⟨[], ["id"], []⟩).imports

/-- Insert a string into a lexicographically sorted list. -/
def insertSorted (s : String) : List String → List String
  | [] => [s]
  | t :: ts => if s < t then s :: t :: ts else t :: insertSorted s ts

/-- Models Array.from(set).sort(): the default JavaScript sort compares
strings by code units, which is the Lean order on these ASCII lines. -/
def sortStrings (l : List String) : List String :=
  l.foldr insertSorted []

/-- The field identifiers declared by the generated DTO class, in order:
the fixed id member of the DTO template followed by the kept scalar
fields. -/
def dtoFieldNames (cls : ClassDefinition) : List String :=
  "id" :: (dtoScalarFields cls).map (·.name)

/-- Mirrors generateDTO. -/
def generateDTO (packageName : String) (cls : ClassDefinition) : String :=
  let className := toPascal cls.name
  let d := processDtoAttrs 0 cls.attributes ⟨[], ["id"], []⟩
  let fieldDefinitions :=
    d.fields.map fun p => "    private " ++ p.type ++ " " ++ p.name ++ ";"
  let importSection := String.intercalate "\n" (sortStrings d.imports)
  let importBlock :=
    if d.imports.length != 0 then "\n" ++ importSection ++ "\n" else ""
  "package "
  ++ packageName
  ++ ".dto;\n\nimport lombok.*;"
  ++ importBlock
  ++ "\n\n@Data\n@NoArgsConstructor\n@AllArgsConstructor\npublic class "
  ++ className
  ++ "DTO \x7b\n    private Long id;\n"
  ++ (if fieldDefinitions.length != 0 then "\n" ++ String.intercalate "\n" fieldDefinitions ++ "\n" else "")
  ++ "\n\x7d"

/-- Mirrors generateImports. -/
def generateImports (packageName : String) : String :=
  "package "
  ++ packageName
  ++ ".model;\n\nimport jakarta.persistence.*;\nimport lombok.*;\nimport java.util.*;\nimport java.math.BigDecimal;\nimport java.time.LocalDate;\nimport java.time.LocalDateTime;\nimport java.util.UUID;\nimport com.fasterxml.jackson.annotation.*;\n\n"

/-- Mirrors generateClass, the entity emitter. -/
def generateClass (packageName : String)
    (relations : List RelationDefinition) (cls : ClassDefinition) : String :=
  let className := toPascal cls.name
  let varName := toCamelCase className
  let body := generateFields relations cls
  generateImports packageName
  ++ "\n@Entity\n@Table(name = \""
  ++ toPlural (jsToLower className)
  ++ "\")\n@Data\n@NoArgsConstructor\n@AllArgsConstructor\n@Builder\npublic class "
  ++ className
  ++ " \x7b\n    @Id\n    @GeneratedValue(strategy = GenerationType.IDENTITY)\n    private Long id;\n\n"
  ++ (if body != "" then "\n" ++ body ++ "\n" else "")
  ++ "\n\n    @Override\n    public boolean equals(Object o) \x7b\n        if (this == o) return true;\n        if (o == null || getClass() != o.getClass()) return false;\n        "
  ++ className
  ++ " "
  ++ varName
  ++ " = ("
  ++ className
  ++ ") o;\n        return Objects.equals(id, "
  ++ varName
  ++ ".id);\n    \x7d\n\n    @Override\n    public int hashCode() \x7b\n        return Objects.hash(id);\n    \x7d\n\n    @Override\n    public String toString() \x7b\n        return \""
  ++ className
  ++ "\x7bid=\" + id + \"\x7d\";\n    \x7d\n\x7d"

/-- Mirrors generatePomXml, a constant build descriptor. -/
def generatePomXml : String :=
  "<?xml version=\"1.0\" encoding=\"UTF-8\"?>\n<project xmlns=\"http://maven.apache.org/POM/4.0.0\"\n         xmlns:xsi=\"http://www.w3.org/2001/XMLSchema-instance\"\n         xsi:schemaLocation=\"http://maven.apache.org/POM/4.0.0 https://maven.apache.org/xsd/maven-4.0.0.xsd\">\n    <modelVersion>4.0.0</modelVersion>\n    <parent>\n        <groupId>org.springframework.boot</groupId>\n        <artifactId>spring-boot-starter-parent</artifactId>\n        <version>3.2.0</version>\n        <relativePath/>\n    </parent>\n    \n    <groupId>com.example</groupId>\n    <artifactId>spring-boot-project</artifactId>\n    <version>0.0.1-SNAPSHOT</version>\n    <name>Generated Spring Boot Project</name>\n    \n    <properties>\n        <java.version>17</java.version>\n    </properties>\n    \n    <dependencies>\n        <dependency>\n            <groupId>org.springframework.boot</groupId>\n            <artifactId>spring-boot-starter-web</artifactId>\n        </dependency>\n        <dependency>\n            <groupId>org.springframework.boot</groupId>\n            <artifactId>spring-boot-starter-data-jpa</artifactId>\n        </dependency>\n        <dependency>\n            <groupId>com.h2database</groupId>\n            <artifactId>h2</artifactId>\n            <scope>runtime</scope>\n        </dependency>\n        <dependency>\n            <groupId>org.projectlombok</groupId>\n            <artifactId>lombok</artifactId>\n            <optional>true</optional>\n        </dependency>\n        <dependency>\n            <groupId>org.modelmapper</groupId>\n            <artifactId>modelmapper</artifactId>\n            <version>3.1.1</version>\n        </dependency>\n    </dependencies>\n    \n    <build>\n        <plugins>\n            <plugin>\n                <groupId>org.springframework.boot</groupId>\n                <artifactId>spring-boot-maven-plugin</artifactId>\n                <configuration>\n                    <excludes>\n                        <exclude>\n                            <groupId>org.projectlombok</groupId>\n                            <artifactId>lombok</artifactId>\n                        </exclude>\n                    </excludes>\n                </configuration>\n            </plugin>\n        </plugins>\n    </build>\n</project>"

/-- Mirrors generateApplicationProperties, a constant configuration file. -/
def generateApplicationProperties : String :=
  "# Configuración de base de datos H2 (en memoria para desarrollo)\nspring.datasource.url=jdbc:h2:mem:testdb\nspring.datasource.driver-class-name=org.h2.Driver\nspring.datasource.username=sa\nspring.datasource.password=\n\n# JPA/Hibernate configuración\nspring.jpa.database-platform=org.hibernate.dialect.H2Dialect\nspring.jpa.hibernate.ddl-auto=create-drop\nspring.jpa.show-sql=true\nspring.jpa.defer-datasource-initialization=true\n\n# H2 Console\nspring.h2.console.enabled=true\nspring.h2.console.path=/h2-console\n\n# Configuración del servidor\nserver.port=8080\n\n# ✅ LOGGING DETALLADO PARA DEBUG\nlogging.level.org.springframework.web=INFO\nlogging.level.org.hibernate=INFO\nlogging.level.org.springframework.context=DEBUG\nlogging.level.org.springframework.beans=DEBUG\nlogging.level.com.example=DEBUG\n\n# Jackson configuración\nspring.jackson.serialization.fail-on-empty-beans=false\nspring.jackson.serialization.fail-on-self-references=false\n\n# ✅ Desactivar inicialización automática problemática\nspring.jpa.open-in-view=false\n"

/-- Mirrors generateMainApplication, a constant bootstrap file. -/
def generateMainApplication : String :=
  "package com.example;\n\nimport org.springframework.boot.SpringApplication;\nimport org.springframework.boot.autoconfigure.SpringBootApplication;\n\n@SpringBootApplication\npublic class Application \x7b\n    public static void main(String[] args) \x7b\n        SpringApplication.run(Application.class, args);\n    \x7d\n\x7d"

/-- Mirrors generateModelMapperConfig, a constant configuration artifact. -/
def generateModelMapperConfig : String :=
  "package com.example.config;\n\nimport org.modelmapper.ModelMapper;\nimport org.springframework.context.annotation.Bean;\nimport org.springframework.context.annotation.Configuration;\n\n@Configuration\npublic class ModelMapperConfig \x7b\n\n    @Bean\n    public ModelMapper modelMapper() \x7b\n        return new ModelMapper();\n    \x7d\n\x7d"

/-- Mirrors generateRepository. -/
def generateRepository (packageName : String) (cls : ClassDefinition) : String :=
  let className := toPascal cls.name
  "package "
  ++ packageName
  ++ ".repository;\n\nimport "
  ++ packageName
  ++ ".model."
  ++ className
  ++ ";\nimport org.springframework.data.jpa.repository.JpaRepository;\nimport org.springframework.stereotype.Repository;\n\n@Repository\npublic interface "
  ++ className
  ++ "Repository extends JpaRepository<"
  ++ className
  ++ ", Long> \x7b\n\x7d"

/-- Mirrors generateService. -/
def generateService (packageName : String) (cls : ClassDefinition) : String :=
  let className := toPascal cls.name
  let varName := toCamelCase className
  let repoName := className ++ "Repository"
  let repoVar := varName ++ "Repository"
  let dtoName := className ++ "DTO"
  "package "
  ++ packageName
  ++ ".service;\n\nimport "
  ++ packageName
  ++ ".dto."
  ++ dtoName
  ++ ";\nimport "
  ++ packageName
  ++ ".model."
  ++ className
  ++ ";\nimport "
  ++ packageName
  ++ ".repository."
  ++ repoName
  ++ ";\nimport org.modelmapper.ModelMapper;\nimport org.springframework.stereotype.Service;\nimport org.springframework.transaction.annotation.Transactional;\n\nimport java.util.List;\nimport java.util.stream.Collectors;\n\n@Service\n@Transactional\npublic class "
  ++ className
  ++ "Service \x7b\n\n    private final "
  ++ repoName
  ++ " "
  ++ repoVar
  ++ ";\n    private final ModelMapper modelMapper;\n\n    public "
  ++ className
  ++ "Service("
  ++ repoName
  ++ " "
  ++ repoVar
  ++ ", ModelMapper modelMapper) \x7b\n        this."
  ++ repoVar
  ++ " = "
  ++ repoVar
  ++ ";\n        this.modelMapper = modelMapper;\n    \x7d\n\n    @Transactional(readOnly = true)\n    public List<"
  ++ dtoName
  ++ "> findAll() \x7b\n        return "
  ++ repoVar
  ++ ".findAll().stream()\n                .map(entity -> modelMapper.map(entity, "
  ++ dtoName
  ++ ".class))\n                .collect(Collectors.toList());\n    \x7d\n\n    @Transactional(readOnly = true)\n    public "
  ++ dtoName
  ++ " findById(Long id) \x7b\n        "
  ++ className
  ++ " entity = "
  ++ repoVar
  ++ ".findById(id)\n                .orElseThrow(() -> new RuntimeException(\""
  ++ className
  ++ " not found with id: \" + id));\n        return modelMapper.map(entity, "
  ++ dtoName
  ++ ".class);\n    \x7d\n\n    public "
  ++ dtoName
  ++ " create("
  ++ dtoName
  ++ " dto) \x7b\n        try \x7b\n            "
  ++ className
  ++ " entity = modelMapper.map(dto, "
  ++ className
  ++ ".class);\n            // ✅ NO usar setId(null) - Lombok @Data maneja esto\n            "
  ++ className
  ++ " savedEntity = "
  ++ repoVar
  ++ ".save(entity);\n            return modelMapper.map(savedEntity, "
  ++ dtoName
  ++ ".class);\n        \x7d catch (Exception e) \x7b\n            throw new RuntimeException(\"Error creating "
  ++ className
  ++ ": \" + e.getMessage(), e);\n        \x7d\n    \x7d\n\n    public "
  ++ dtoName
  ++ " update(Long id, "
  ++ dtoName
  ++ " dto) \x7b\n        try \x7b\n            "
  ++ className
  ++ " existing = "
  ++ repoVar
  ++ ".findById(id)\n                .orElseThrow(() -> new RuntimeException(\""
  ++ className
  ++ " not found with id: \" + id));\n            \n            // ✅ Mapear solo los campos, preservando el ID\n            Long originalId = existing.getId();\n            modelMapper.map(dto, existing);\n            existing.setId(originalId); // Restaurar ID original\n            \n            "
  ++ className
  ++ " savedEntity = "
  ++ repoVar
  ++ ".save(existing);\n            return modelMapper.map(savedEntity, "
  ++ dtoName
  ++ ".class);\n        \x7d catch (Exception e) \x7b\n            throw new RuntimeException(\"Error updating "
  ++ className
  ++ ": \" + e.getMessage(), e);\n        \x7d\n    \x7d\n\n    public void delete(Long id) \x7b\n        try \x7b\n            if (!"
  ++ repoVar
  ++ ".existsById(id)) \x7b\n                throw new RuntimeException(\""
  ++ className
  ++ " not found with id: \" + id);\n            \x7d\n            "
  ++ repoVar
  ++ ".deleteById(id);\n        \x7d catch (Exception e) \x7b\n            throw new RuntimeException(\"Error deleting "
  ++ className
  ++ ": \" + e.getMessage(), e);\n        \x7d\n    \x7d\n\x7d"

/-- Mirrors generateController. -/
def generateController (packageName : String) (cls : ClassDefinition) : String :=
  let className := toPascal cls.name
  let varName := toCamelCase className
  let dtoName := className ++ "DTO"
  let basePath := "\"/api/" ++ toPlural varName ++ "\""
  "package "
  ++ packageName
  ++ ".controller;\n\nimport "
  ++ packageName
  ++ ".dto."
  ++ dtoName
  ++ ";\nimport "
  ++ packageName
  ++ ".service."
  ++ className
  ++ "Service;\nimport org.springframework.http.ResponseEntity;\nimport org.springframework.web.bind.annotation.*;\n\nimport java.util.List;\n\n@RestController\n@RequestMapping("
  ++ basePath
  ++ ")\npublic class "
  ++ className
  ++ "Controller \x7b\n\n    private final "
  ++ className
  ++ "Service "
  ++ varName
  ++ "Service;\n\n    public "
  ++ className
  ++ "Controller("
  ++ className
  ++ "Service "
  ++ varName
  ++ "Service) \x7b\n        this."
  ++ varName
  ++ "Service = "
  ++ varName
  ++ "Service;\n    \x7d\n\n    @GetMapping\n    public ResponseEntity<List<"
  ++ dtoName
  ++ ">> getAll() \x7b\n        return ResponseEntity.ok("
  ++ varName
  ++ "Service.findAll());\n    \x7d\n\n    @GetMapping(\"/\x7bid\x7d\")\n    public ResponseEntity<"
  ++ dtoName
  ++ "> getById(@PathVariable Long id) \x7b\n        try \x7b\n            return ResponseEntity.ok("
  ++ varName
  ++ "Service.findById(id));\n        \x7d catch (RuntimeException e) \x7b\n            return ResponseEntity.notFound().build();\n        \x7d\n    \x7d\n\n    @PostMapping\n    public ResponseEntity<"
  ++ dtoName
  ++ "> create(@RequestBody "
  ++ dtoName
  ++ " dto) \x7b\n        return ResponseEntity.ok("
  ++ varName
  ++ "Service.create(dto));\n    \x7d\n\n    @PutMapping(\"/\x7bid\x7d\")\n    public ResponseEntity<"
  ++ dtoName
  ++ "> update(@PathVariable Long id, @RequestBody "
  ++ dtoName
  ++ " dto) \x7b\n        try \x7b\n            return ResponseEntity.ok("
  ++ varName
  ++ "Service.update(id, dto));\n        \x7d catch (RuntimeException e) \x7b\n            return ResponseEntity.notFound().build();\n        \x7d\n    \x7d\n\n    @DeleteMapping(\"/\x7bid\x7d\")\n    public ResponseEntity<Void> delete(@PathVariable Long id) \x7b\n        try \x7b\n            "
  ++ varName
  ++ "Service.delete(id);\n            return ResponseEntity.noContent().build();\n        \x7d catch (RuntimeException e) \x7b\n            return ResponseEntity.notFound().build();\n        \x7d\n    \x7d\n\x7d"

/-- The state of the exported class JavaSpringGenerator at generation
time: the classes and relations added so far and the package name of the
constructor. -/
structure JavaSpringGenerator where
  classes : List ClassDefinition
  relations : List RelationDefinition
  packageName : String

/-- The per-class entries generateAll assigns into the result record, in
assignment order. -/
def generateAllClassFiles (packageName : String)
    (relations : List RelationDefinition) (cls : ClassDefinition) :
    List (String × String) :=
  let className := toPascal cls.name
  [("src/main/java/com/example/model/" ++ className ++ ".java",
    generateClass packageName relations cls),
   ("src/main/java/com/example/dto/" ++ className ++ "DTO.java",
    generateDTO packageName cls),
   ("src/main/java/com/example/repository/" ++ className ++ "Repository.java",
    generateRepository packageName cls),
   ("src/main/java/com/example/service/" ++ className ++ "Service.java",
    generateService packageName cls),
   ("src/main/java/com/example/controller/" ++ className ++ "Controller.java",
    generateController packageName cls)]

/-- The entries of generateAll that do not depend on the clock, in
assignment order. -/
def generateAllBase (g : JavaSpringGenerator) : List (String × String) :=
  [("pom.xml", generatePomXml),
   ("src/main/resources/application.properties", generateApplicationProperties),
   ("src/main/java/com/example/Application.java", generateMainApplication),
   ("src/main/java/com/example/config/ModelMapperConfig.java",
    generateModelMapperConfig)]
  ++ (g.classes.map (generateAllClassFiles g.packageName g.relations)).flatten
  ++ [("postman-collection.json", generatePostmanCollection g.classes)]

/-- Mirrors generateAll: the file map as the ordered list of record
assignments (relative path, file text).  The clock value the source reads
with Date.now() while emitting the environment document is the explicit
argument now. -/
def generateAll (g : JavaSpringGenerator) (now : Nat) : List (String × String) :=
  generateAllBase g
  ++ [("postman-environment.json", generatePostmanEnvironment now)]

example :
    (generateAll ⟨[⟨"Author", ["name: String"], []⟩], [], "com.example"⟩ 0).map
        Prod.fst
      = ["pom.xml", "src/main/resources/application.properties",
         "src/main/java/com/example/Application.java",
         "src/main/java/com/example/config/ModelMapperConfig.java",
         "src/main/java/com/example/model/Author.java",
         "src/main/java/com/example/dto/AuthorDTO.java",
         "src/main/java/com/example/repository/AuthorRepository.java",
         "src/main/java/com/example/service/AuthorService.java",
         "src/main/java/com/example/controller/AuthorController.java",
         "postman-collection.json", "postman-environment.json"] := by decide

example : safeStr "  a b " "f" = "a b" := by decide
example : toCamelCase "Class" = "classEntity" := by decide
example : toPlural "category" = "categories" := by decide
example : sanitizeIdentifier " a b " "f" = "a_b" := by decide
example : sanitizeIdentifier "" "1 b" = "_1_b" := by decide
example : sanitizeIdentifier "9lives" "f" = "_9lives" := by decide

/-! ### Helper lemmas -/

/-- Every character of a replaced string satisfies the kept-character
class: the replacement writes an underscore wherever the class fails. -/
theorem mem_jsReplace {t : String} {c : Char}
    (hc : c ∈ (jsReplaceNonIdChars t).data) : isIdChar c = true := by
  simp only [jsReplaceNonIdChars, List.mem_map] at hc
  obtain ⟨c', _, rfl⟩ := hc
  by_cases h : isIdChar c' = true
  · rwa [if_pos h]
  · rw [if_neg h]
    decide

/-- Mapping the sanitizing replacement over characters that are all in the
kept class changes nothing. -/
theorem map_id_of_idChar :
    ∀ l : List Char, (∀ c ∈ l, isIdChar c = true) →
      l.map (fun c => if isIdChar c then c else '_') = l := by
  intro l h
  induction l with
  | nil => rfl
  | cons c cs ih =>
    rw [List.map_cons, if_pos (h c (by simp)),
      ih fun c' hc' => h c' (by simp [hc'])]

/-- Replacement fixes a string whose characters all lie in the kept
class. -/
theorem jsReplace_fixed {t : String} (h : ∀ c ∈ t.data, isIdChar c = true) :
    jsReplaceNonIdChars t = t := by
  show String.mk (t.data.map _) = t
  rw [map_id_of_idChar t.data h]

/-- The characters of an appended string. -/
theorem str_data_append (a b : String) : (a ++ b).data = a.data ++ b.data :=
  String.data_append a b

/-- Prefixing an underscore never yields a digit-initial string. -/
theorem startsWithDigit_underscore_append (s : String) :
    startsWithDigit ("_" ++ s) = false := by
  unfold startsWithDigit
  rw [str_data_append, show ("_" : String).data = ['_'] from rfl]
  rfl

/-- The last character of an appended string comes from a nonempty second
part. -/
theorem str_getLast_append (a b : String) (c : Char)
    (hb : b.data.getLast? = some c) : (a ++ b).data.getLast? = some c := by
  have hne : b.data ≠ [] := by
    intro h
    rw [h] at hb
    simp at hb
  rw [str_data_append, List.getLast?_append_of_ne_nil _ hne, hb]

/-- Every pluralized identifier ends in the letter s. -/
theorem toPlural_getLast (s : String) :
    (toPlural s).data.getLast? = some 's' := by
  simp only [toPlural]
  split
  · decide
  · split
    · exact str_getLast_append _ "es" 's' (by decide)
    · split
      · exact str_getLast_append _ "ies" 's' (by decide)
      · split
        · exact str_getLast_append _ "ves" 's' (by decide)
        · split
          · exact str_getLast_append _ "ves" 's' (by decide)
          · exact str_getLast_append _ "s" 's' (by decide)

/-- A pluralized identifier is never the surrogate name id. -/
theorem toPlural_ne_id (s : String) : toPlural s ≠ "id" := by
  intro h
  have h2 : (some 's' : Option Char) = some 'd' := by
    rw [← toPlural_getLast s, h]
    rfl
  simp at h2

/-- Looking a key up is unaffected by the value stored under a different
key appended at the end. -/
theorem lookup_append_last_irrel (l : List (String × String))
    (k k' v v' : String) (hkk' : k ≠ k') :
    (l ++ [(k', v)]).lookup k = (l ++ [(k', v')]).lookup k := by
  induction l with
  | nil =>
    simp only [List.nil_append, List.lookup]
    rw [beq_false_of_ne hkk']
  | cons hd tl ih =>
    obtain ⟨k₀, v₀⟩ := hd
    simp only [List.cons_append, List.lookup]
    cases k == k₀ <;> simp [ih]

/-! ### Claims -/

/-- Claim C1 (code bug evaluated on its failing input): the claim states
that no two emitted fields of a class share a name, the relation dedup
candidate being the pluralized camel-cased other-class name for collection
fields.  The source reserves the singular otherVar for every source-side
relation while the ONE_TO_MANY branch emits the pluralized name, so an
attribute named bs and a ONE_TO_MANY relation towards class B emit two
fields named bs. -/
theorem C1_relation_field_name_collision :
    (entityMembers [⟨"A", "B", .ONE_TO_MANY, false⟩]
        ⟨"A", ["bs"], []⟩).map (fun f => f.name) = ["bs", "bs"]
    ∧ ¬ ((entityMembers [⟨"A", "B", .ONE_TO_MANY, false⟩]
        ⟨"A", ["bs"], []⟩).map (fun f => f.name)).Nodup := by
  constructor <;> decide

/-- Claim C3 (code bug evaluated on its failing input): for a
bidirectional MANY_TO_MANY relation from Student to Course, the owning
side emits the collection field courses with join table student_course,
but the inverse side's mappedBy names students, the pluralized camel-cased
source-class name, which is the inverse field's own name and not the
owning side's collection field courses. -/
theorem C3_many_to_many_mappedBy :
    ((entityMembers [⟨"Student", "Course", .MANY_TO_MANY, true⟩]
        ⟨"Student", [], []⟩).map (fun f => (f.name, f.joinTable))
      = [("courses", some "student_course")])
    ∧ ((entityMembers [⟨"Student", "Course", .MANY_TO_MANY, true⟩]
        ⟨"Course", [], []⟩).map (fun f => (f.name, f.mappedBy))
      = [("students", some "students")])
    ∧ ("students" : String) ≠ "courses" := by
  refine ⟨by decide, by decide, by decide⟩

/-- Claim C5 (code bug evaluated on its failing input): the claim, the
source's own default comment and its Record-of-strings annotation say that
every token absent from the synonym table resolves to String, but the
lookup typeMap[normalized] walks the prototype chain, so a token naming an
inherited Object.prototype member such as toString leaks that member — a
truthy non-string, so the String default never applies — and the generated
artifacts render its coercion text; a token naming no inherited member
still defaults to String. -/
theorem C5_proto_chain_leak :
    typeMap.lookup (jsTrim "toString") = none
    ∧ mapToJavaType "toString" = "function toString() \x7b [native code] \x7d"
    ∧ mapToJavaType "toString" ≠ "String"
    ∧ mapToJavaType "valueOf" ≠ "String"
    ∧ mapToJavaType "constructor" ≠ "String"
    ∧ mapToJavaType "varchar2" = "String" := by
  refine ⟨by decide, by decide, by decide, by decide, by decide, by decide⟩

/-- Claim C7: toPlural applies the English heuristics in the fixed
priority order of the source, giving the four inspected values of the
claim: classes, categories, leaves and users. -/
theorem C7_pluralize_examples :
    toPlural "class" = "classes" ∧ toPlural "category" = "categories"
    ∧ toPlural "leaf" = "leaves" ∧ toPlural "user" = "users" := by
  refine ⟨by decide, by decide, by decide, by decide⟩

/-- Counterexample to claim C6 as stated: sanitize("", fallback) is not
the fallback itself, because the fallback is substituted before the
replacement and digit-prefix steps and is therefore cleaned too. -/
theorem C6_sanitize_counterexample :
    sanitizeIdentifier "" "1 b" = "_1_b" ∧ ("_1_b" : String) ≠ "1 b" := by
  constructor <;> decide

/-- Claim C6 as amended: sanitizeIdentifier trims the input, substitutes
the fallback when the trimmed input is empty, replaces every character of
that base outside the kept class (Unicode letter, Unicode number,
underscore, dollar) with an underscore and prefixes an underscore when the
result starts with an ASCII digit; hence the result contains only kept
characters, never starts with an ASCII digit, and sanitize("", fallback)
returns the fallback exactly when the fallback is already clean. -/
theorem C6_sanitize_properties (raw fb : String) :
    (∀ c ∈ (sanitizeIdentifier raw fb).data, isIdChar c = true)
    ∧ startsWithDigit (sanitizeIdentifier raw fb) = false
    ∧ ((∀ c ∈ fb.data, isIdChar c = true) → startsWithDigit fb = false →
        sanitizeIdentifier "" fb = fb) := by
  refine ⟨?_, ?_, ?_⟩
  · intro c hc
    simp only [sanitizeIdentifier] at hc
    by_cases hd : startsWithDigit (jsReplaceNonIdChars (safeStr raw fb)) = true
    · rw [if_pos hd, str_data_append] at hc
      rcases List.mem_append.1 hc with h1 | h1
      · rw [show ("_" : String).data = ['_'] from rfl,
          List.mem_singleton] at h1
        subst h1
        decide
      · exact mem_jsReplace h1
    · rw [if_neg hd] at hc
      exact mem_jsReplace hc
  · simp only [sanitizeIdentifier]
    by_cases hd : startsWithDigit (jsReplaceNonIdChars (safeStr raw fb)) = true
    · rw [if_pos hd]
      exact startsWithDigit_underscore_append _
    · rw [if_neg hd]
      rwa [Bool.not_eq_true] at hd
  · intro hall hdig
    have h1 : safeStr "" fb = fb := rfl
    simp only [sanitizeIdentifier, h1, jsReplace_fixed hall, hdig]
    simp

/-- Witness for C6 on a clean fallback. -/
theorem C6_sanitize_properties_witness :
    sanitizeIdentifier "" "userName" = "userName" :=
  (C6_sanitize_properties "" "userName").2.2 (by decide) (by decide)

/-- Counterexample to claim C8 as stated: for the two-token line int
count, the resulting type is the canonical mapping Integer, not the first
token int itself. -/
theorem C8_two_token_counterexample :
    parseAttribute "int count" 0 = ⟨"Integer", "count"⟩
    ∧ ("Integer" : String) ≠ "int" := by
  constructor <;> decide

/-- Claim C8 as amended: a no-colon line of exactly two whitespace-
separated tokens whose first token is type-like yields the canonical
mapping of the first token as the type (String when the token has no
table entry) and the camel-cased sanitization of the second token as the
name. -/
theorem C8_two_token_parse (line : String) (i : Nat) (t1 t2 : String)
    (hraw : safeStr line "" ≠ "")
    (hcolon : splitAtFirstColon (safeStr line "").data = none)
    (htok : jsSplitWsTokens (safeStr line "") = [t1, t2])
    (hjava : isJavaType t1 = true) :
    parseAttribute line i =
      ⟨mapToJavaType t1,
       toCamelCase (sanitizeIdentifier t2 ("field_" ++ Nat.repr (i + 1)))⟩ := by
  simp only [parseAttribute, hcolon, htok]
  rw [if_neg hraw, if_pos hjava]

/-- Witness for C8 on the line UUID token. -/
theorem C8_two_token_parse_witness :
    parseAttribute "UUID token" 3 =
      ⟨mapToJavaType "UUID",
       toCamelCase (sanitizeIdentifier "token" ("field_" ++ Nat.repr 4))⟩ :=
  C8_two_token_parse "UUID token" 3 "UUID" "token" (by decide) (by decide)
    (by decide) (by decide)

/-- Counterexample to claim C9 as stated: a decimal attribute resolves to
BigDecimal, which the sample-body switch does not treat as a number — it
falls to the default case and gets the sample string, not 1.0. -/
theorem C9_sample_counterexample :
    sampleBodyData ⟨"Product", ["price: decimal"], []⟩
      = [("price", Json.str "sample_price")]
    ∧ Json.str "sample_price" ≠ Json.num 1 :=
  ⟨rfl, fun h => Json.noConfusion h⟩

/-- Claim C9 as amended: the sample value is determined solely by the
canonical type — String gets the sample string, Integer and Long get 1,
Double and Float get 1.0 (the same JavaScript number as 1), Boolean gets
true, and every other canonical type, including BigDecimal, falls to the
default sample string; the body object of a class with one attribute of
each kind evaluates accordingly. -/
theorem C9_sample_values (type name : String) :
    (type = "String" → sampleValueFor type name = .str ("sample_" ++ name))
    ∧ (type = "Integer" ∨ type = "Long" → sampleValueFor type name = .num 1)
    ∧ (type = "Double" ∨ type = "Float" → sampleValueFor type name = .num 1)
    ∧ (type = "Boolean" → sampleValueFor type name = .bool true)
    ∧ (type ∉ ["String", "Integer", "Long", "Double", "Float", "Boolean"] →
        sampleValueFor type name = .str ("sample_" ++ name))
    ∧ sampleBodyData ⟨"P", ["name: text", "count: int", "views: long",
        "rate: float", "price: decimal", "active: bool"], []⟩
      = [("name", .str "sample_name"), ("count", .num 1), ("views", .num 1),
         ("rate", .num 1), ("price", .str "sample_price"),
         ("active", .bool true)] := by
  refine ⟨?_, ?_, ?_, ?_, ?_, rfl⟩
  · intro h
    simp [sampleValueFor, h]
  · rintro (h | h) <;> simp [sampleValueFor, h]
  · rintro (h | h) <;> simp [sampleValueFor, h]
  · intro h
    simp [sampleValueFor, h]
  · intro h
    simp only [List.mem_cons, List.not_mem_nil, or_false, not_or] at h
    obtain ⟨h1, h2, h3, h4, h5, h6⟩ := h
    simp [sampleValueFor, h1, h2, h3, h4, h5, h6]

/-- Witness for C9 at the canonical decimal type. -/
theorem C9_sample_values_witness :
    sampleValueFor "BigDecimal" "price" = Json.str "sample_price" :=
  (C9_sample_values "BigDecimal" "price").2.2.2.2.1 (by decide)

/-- Counterexample to claim C4 as stated: two invocations of generateAll
over the same classes and relations differ when the clock readings differ,
because the environment document id embeds Date.now(). -/
theorem C4_generateAll_counterexample :
    generateAll ⟨[], [], "com.example"⟩ 0
      ≠ generateAll ⟨[], [], "com.example"⟩ 1 := by
  intro h
  have h2 := congrArg (fun l => l.lookup "postman-environment.json") h
  simp only [generateAll, generateAllBase] at h2
  exact absurd h2 (by decide)

/-- Claim C4 as amended: generateAll is a pure function of the classes,
relations, package name and the clock reading taken during generation;
every entry except postman-environment.json is independent of the clock,
so two invocations can differ only in that entry. -/
theorem C4_generateAll_clock_independence (g : JavaSpringGenerator)
    (t₁ t₂ : Nat) (p : String) (hp : p ≠ "postman-environment.json") :
    (generateAll g t₁).lookup p = (generateAll g t₂).lookup p := by
  unfold generateAll
  exact lookup_append_last_irrel (generateAllBase g) p
    "postman-environment.json" _ _ hp

/-- Witness for C4 at the build descriptor entry. -/
theorem C4_generateAll_clock_independence_witness :
    (generateAll ⟨[], [], "com.example"⟩ 0).lookup "pom.xml"
      = (generateAll ⟨[], [], "com.example"⟩ 5).lookup "pom.xml" :=
  C4_generateAll_clock_independence ⟨[], [], "com.example"⟩ 0 5 "pom.xml"
    (by decide)

/-- Counterexample to claim C2 as stated: for a ONE_TO_MANY relation whose
target class is named Id, the source-side candidate name is the
camel-cased id, which is reserved for the surrogate key before any
relation is processed, so the relation is skipped entirely and the
planning class A resolves no collection field at all. -/
theorem C2_one_to_many_counterexample :
    entityMembers [⟨"A", "Id", .ONE_TO_MANY, false⟩] ⟨"A", [], []⟩ = []
    ∧ ((entityMembers [⟨"A", "Id", .ONE_TO_MANY, false⟩]
        ⟨"A", [], []⟩).map (fun f => f.name)).length ≠ 1 :=
  ⟨rfl, by decide⟩

/-- Claim C2 as amended: for a relation from A to B of kind ONE_TO_MANY
between distinct attribute-free classes whose source-side candidate is
still free — the camel-cased B is not the reserved surrogate name id —
planning A emits exactly one collection-of-B field, named with the
pluralized camel-cased B and mapped by the camel-cased A, and planning B
emits exactly one scalar reference-to-A field carrying the foreign-key
join column, for both values of bidirectional; when the candidate is
already reserved (a target class named Id) the field on A is skipped
entirely. -/
theorem C2_one_to_many_planning (A B : String) (bid : Bool) (hAB : A ≠ B)
    (hB : toCamelCase B ≠ "id") :
    (entityMembers [⟨A, B, .ONE_TO_MANY, bid⟩] ⟨A, [], []⟩).map
        (fun f => (f.name, f.javaType, f.mappedBy))
      = [(toPlural (toCamelCase B), "Set<" ++ B ++ ">", some (toCamelCase A))]
    ∧ (entityMembers [⟨A, B, .ONE_TO_MANY, bid⟩] ⟨B, [], []⟩).map
        (fun f => (f.name, f.javaType, f.joinColumn))
      = [(toCamelCase A, A, some (toCamelCase A ++ "_id"))] := by
  constructor
  · simp [entityMembers, processAttrs, processRel, hAB, hB, toPlural_ne_id]
  · simp [entityMembers, processAttrs, processRel, hAB, hB, toPlural_ne_id]

/-- Witness for C2 on the classes Author and Book with bidirectional
false. -/
theorem C2_one_to_many_planning_witness :
    (entityMembers [⟨"Author", "Book", .ONE_TO_MANY, false⟩]
        ⟨"Author", [], []⟩).map (fun f => (f.name, f.javaType, f.mappedBy))
      = [(toPlural (toCamelCase "Book"), "Set<" ++ "Book" ++ ">",
          some (toCamelCase "Author"))]
    ∧ (entityMembers [⟨"Author", "Book", .ONE_TO_MANY, false⟩]
        ⟨"Book", [], []⟩).map (fun f => (f.name, f.javaType, f.joinColumn))
      = [(toCamelCase "Author", "Author",
          some (toCamelCase "Author" ++ "_id"))] :=
  C2_one_to_many_planning "Author" "Book" false (by decide) (by decide)

/-- The reservation set only grows under the relation loop. -/
theorem processRel_used_mono (className thisVar : String) (acc : FieldAcc)
    (r : RelationDefinition) :
    acc.used ⊆ (processRel className thisVar acc r).used := by
  intro x hx
  simp only [processRel]
  repeat' split
  all_goals first | exact hx | exact List.mem_append_left _ hx

set_option maxHeartbeats 1000000 in
/-- Shape of every field a ONE_TO_ONE relation can add: both sides emit
the unreserved candidate name itself. -/
theorem processRel_fields_one_to_one (className thisVar : String)
    (acc : FieldAcc) (src tgt : String) (bid : Bool) (f : EmittedField)
    (hff : f ∈ (processRel className thisVar acc
      ⟨src, tgt, .ONE_TO_ONE, bid⟩).fields) :
    f ∈ acc.fields ∨ f.name ∉ acc.used := by
  simp only [processRel] at hff
  split at hff
  · split at hff
    · exact Or.inl hff
    · rename_i hns
      rcases List.mem_append.1 hff with h | h
      · exact Or.inl h
      · rw [List.mem_singleton] at h
        subst h
        exact Or.inr hns
  · split at hff
    · exact Or.inl hff
    · rename_i hns
      rcases List.mem_append.1 hff with h | h
      · exact Or.inl h
      · split at h
        · rw [List.mem_singleton] at h
          subst h
          exact Or.inr hns
        · exact absurd h (List.not_mem_nil f)

set_option maxHeartbeats 1000000 in
/-- Shape of every field a MANY_TO_ONE relation can add: the owning side
emits the unreserved candidate itself, the inverse side a pluralized
name. -/
theorem processRel_fields_many_to_one (className thisVar : String)
    (acc : FieldAcc) (src tgt : String) (bid : Bool) (f : EmittedField)
    (hff : f ∈ (processRel className thisVar acc
      ⟨src, tgt, .MANY_TO_ONE, bid⟩).fields) :
    f ∈ acc.fields ∨ f.name ∉ acc.used ∨ (∃ s, f.name = toPlural s) := by
  simp only [processRel] at hff
  split at hff
  · split at hff
    · exact Or.inl hff
    · rename_i hns
      rcases List.mem_append.1 hff with h | h
      · exact Or.inl h
      · rw [List.mem_singleton] at h
        subst h
        exact Or.inr (Or.inl hns)
  · split at hff
    · exact Or.inl hff
    · rcases List.mem_append.1 hff with h | h
      · exact Or.inl h
      · split at h
        · rw [List.mem_singleton] at h
          subst h
          exact Or.inr (Or.inr ⟨toCamelCase src, rfl⟩)
        · exact absurd h (List.not_mem_nil f)

set_option maxHeartbeats 1000000 in
/-- Shape of every field a ONE_TO_MANY relation can add: the owning side
emits a pluralized name, the target side the camel-cased source-class
name. -/
theorem processRel_fields_one_to_many (className thisVar : String)
    (acc : FieldAcc) (src tgt : String) (bid : Bool) (f : EmittedField)
    (hff : f ∈ (processRel className thisVar acc
      ⟨src, tgt, .ONE_TO_MANY, bid⟩).fields) :
    f ∈ acc.fields ∨ f.name ∉ acc.used ∨ (∃ s, f.name = toPlural s)
    ∨ (f.name = toCamelCase src ∧ src ≠ className) := by
  simp only [processRel] at hff
  split at hff
  · split at hff
    · exact Or.inl hff
    · rcases List.mem_append.1 hff with h | h
      · exact Or.inl h
      · rw [List.mem_singleton] at h
        subst h
        exact Or.inr (Or.inr (Or.inl ⟨toCamelCase tgt, rfl⟩))
  · rename_i hsc
    split at hff
    · exact Or.inl hff
    · rcases List.mem_append.1 hff with h | h
      · exact Or.inl h
      · rw [List.mem_singleton] at h
        subst h
        exact Or.inr (Or.inr (Or.inr ⟨rfl, hsc⟩))

set_option maxHeartbeats 4000000 in
/-- Shape of every field a MANY_TO_MANY relation can add: both sides emit
pluralized names. -/
theorem processRel_fields_many_to_many (className thisVar : String)
    (acc : FieldAcc) (src tgt : String) (bid : Bool) (f : EmittedField)
    (hff : f ∈ (processRel className thisVar acc
      ⟨src, tgt, .MANY_TO_MANY, bid⟩).fields) :
    f ∈ acc.fields ∨ f.name ∉ acc.used ∨ (∃ s, f.name = toPlural s) := by
  simp only [processRel] at hff
  split at hff
  · split at hff
    · exact Or.inl hff
    · rcases List.mem_append.1 hff with h | h
      · exact Or.inl h
      · rw [List.mem_singleton] at h
        subst h
        exact Or.inr (Or.inr ⟨toCamelCase tgt, rfl⟩)
  · split at hff
    · exact Or.inl hff
    · rcases List.mem_append.1 hff with h | h
      · exact Or.inl h
      · split at h
        · rw [List.mem_singleton] at h
          subst h
          exact Or.inr (Or.inr ⟨toCamelCase src, rfl⟩)
        · exact absurd h (List.not_mem_nil f)

set_option maxHeartbeats 1000000 in
/-- Shape of every field the relation loop can add: it was already there,
or its name was unreserved at the time, or it is a pluralized name, or it
is the camel-cased source of a target-side ONE_TO_MANY relation. -/
theorem processRel_fields_names (className thisVar : String) (acc : FieldAcc)
    (r : RelationDefinition) (f : EmittedField)
    (hff : f ∈ (processRel className thisVar acc r).fields) :
    f ∈ acc.fields
    ∨ f.name ∉ acc.used
    ∨ (∃ s, f.name = toPlural s)
    ∨ (f.name = toCamelCase r.source ∧ r.source ≠ className
        ∧ r.type = RelationType.ONE_TO_MANY) := by
  obtain ⟨src, tgt, ty, bid⟩ := r
  cases ty with
  | ONE_TO_ONE =>
    rcases processRel_fields_one_to_one className thisVar acc src tgt bid f
      hff with h | h
    · exact Or.inl h
    · exact Or.inr (Or.inl h)
  | ONE_TO_MANY =>
    rcases processRel_fields_one_to_many className thisVar acc src tgt bid f
      hff with h | h | h | ⟨h1, h2⟩
    · exact Or.inl h
    · exact Or.inr (Or.inl h)
    · exact Or.inr (Or.inr (Or.inl h))
    · exact Or.inr (Or.inr (Or.inr ⟨h1, h2, rfl⟩))
  | MANY_TO_ONE =>
    rcases processRel_fields_many_to_one className thisVar acc src tgt bid f
      hff with h | h | h
    · exact Or.inl h
    · exact Or.inr (Or.inl h)
    · exact Or.inr (Or.inr (Or.inl h))
  | MANY_TO_MANY =>
    rcases processRel_fields_many_to_many className thisVar acc src tgt bid f
      hff with h | h | h
    · exact Or.inl h
    · exact Or.inr (Or.inl h)
    · exact Or.inr (Or.inr (Or.inl h))

/-- Folding the relation loop keeps id reserved and never emits a field
named id, as long as every target-side ONE_TO_MANY relation has a source
class whose camel-cased name is not id. -/
theorem foldRel_id_inv (className thisVar : String) :
    ∀ (rs : List RelationDefinition) (acc : FieldAcc),
      "id" ∈ acc.used →
      "id" ∉ acc.fields.map (fun f => f.name) →
      (∀ r ∈ rs, r.source ≠ className →
        r.type = RelationType.ONE_TO_MANY → toCamelCase r.source ≠ "id") →
      "id" ∈ ((rs.foldl (processRel className thisVar) acc).used)
      ∧ "id" ∉ ((rs.foldl (processRel className thisVar) acc).fields).map
          (fun f => f.name) := by
  intro rs
  induction rs with
  | nil => intro acc hu hf _; exact ⟨hu, hf⟩
  | cons r rest ih =>
    intro acc hu hf hall
    rw [List.foldl_cons]
    apply ih
    · exact processRel_used_mono className thisVar acc r hu
    · intro hmem
      rw [List.mem_map] at hmem
      obtain ⟨f, hff, hname⟩ := hmem
      rcases processRel_fields_names className thisVar acc r f hff with
        h | h | ⟨s, hs⟩ | ⟨h1, h2, h3⟩
      · exact hf (List.mem_map.2 ⟨f, h, hname⟩)
      · exact h (hname ▸ hu)
      · exact toPlural_ne_id s (hs ▸ hname)
      · exact hall r (by simp) h2 h3 (h1 ▸ hname)
    · intro r' hr' h1 h2
      exact hall r' (by simp [hr']) h1 h2

/-- The attribute loop of generateFields keeps id reserved and only emits
fields whose lower-cased name differs from id. -/
theorem processAttrs_inv (attrs : List String) :
    ∀ (i : Nat) (acc : FieldAcc),
      "id" ∈ acc.used →
      (∀ f ∈ acc.fields, jsToLower f.name ≠ "id") →
      "id" ∈ (processAttrs i attrs acc).used
      ∧ ∀ f ∈ (processAttrs i attrs acc).fields, jsToLower f.name ≠ "id" := by
  induction attrs with
  | nil => intro i acc hu hf; exact ⟨hu, hf⟩
  | cons a rest ih =>
    intro i acc hu hf
    simp only [processAttrs]
    by_cases hc : (parseAttribute a i).name ∉ acc.used
        ∧ jsToLower (parseAttribute a i).name ≠ "id"
    · rw [if_pos hc]
      apply ih
      · exact List.mem_append_left _ hu
      · intro f hfm
        rcases List.mem_append.1 hfm with hm | hm
        · exact hf f hm
        · rw [List.mem_singleton] at hm
          subst hm
          exact hc.2
    · rw [if_neg hc]
      exact ih (i + 1) acc hu hf

/-- The attribute loop of generateDTO keeps id reserved and only keeps
fields whose lower-cased name differs from id. -/
theorem processDtoAttrs_inv (attrs : List String) :
    ∀ (i : Nat) (acc : DtoAcc),
      "id" ∈ acc.used →
      (∀ p ∈ acc.fields, jsToLower p.name ≠ "id") →
      "id" ∈ (processDtoAttrs i attrs acc).used
      ∧ ∀ p ∈ (processDtoAttrs i attrs acc).fields, jsToLower p.name ≠ "id" := by
  induction attrs with
  | nil => intro i acc hu hf; exact ⟨hu, hf⟩
  | cons a rest ih =>
    intro i acc hu hf
    simp only [processDtoAttrs]
    by_cases hc : (parseAttribute a i).name ∉ acc.used
        ∧ jsToLower (parseAttribute a i).name ≠ "id"
    · rw [if_pos hc]
      apply ih
      · exact List.mem_append_left _ hu
      · intro p hpm
        rcases List.mem_append.1 hpm with hm | hm
        · exact hf p hm
        · rw [List.mem_singleton] at hm
          subst hm
          exact hc.2
    · rw [if_neg hc]
      exact ih (i + 1) acc hu hf

/-- A field whose lower-cased name differs from id is not named id. -/
theorem name_ne_id_of_lower {s : String} (h : jsToLower s ≠ "id") :
    s ≠ "id" := by
  intro he
  subst he
  exact h (by decide)

/-- No member of a generated entity is named id, as long as every
target-side ONE_TO_MANY relation has a source class whose camel-cased
name is not id. -/
theorem entityMembers_id_not_mem (relations : List RelationDefinition)
    (cls : ClassDefinition)
    (h : ∀ r ∈ relations, r.target = cls.name → r.source ≠ cls.name →
         r.type = RelationType.ONE_TO_MANY → toCamelCase r.source ≠ "id") :
    "id" ∉ (entityMembers relations cls).map (fun f => f.name) := by
  simp only [entityMembers]
  have h0 := processAttrs_inv cls.attributes 0 ⟨[], ["id"]⟩ (by simp)
    (by intro f hf; simp at hf)
  refine (foldRel_id_inv cls.name (toCamelCase cls.name) _ _ h0.1 ?_ ?_).2
  · intro hmem
    rw [List.mem_map] at hmem
    obtain ⟨f, hff, hname⟩ := hmem
    exact name_ne_id_of_lower (h0.2 f hff) hname
  · intro r hr hsrc htype
    have hp := List.of_mem_filter hr
    have hor : r.source = cls.name ∨ r.target = cls.name := by
      simpa using hp
    exact h r (List.mem_of_mem_filter hr) (hor.resolve_left hsrc) hsrc htype

/-- Counterexample to claim C10 as stated: a ONE_TO_MANY relation whose
source class is named Id reserves the pluralized candidate ids on the
target class but emits the back-reference under the singular camel-cased
name id, so the entity for A declares two fields named id. -/
theorem C10_id_counterexample :
    entityFieldNames [⟨"Id", "A", .ONE_TO_MANY, false⟩] ⟨"A", [], []⟩
      = ["id", "id"]
    ∧ (entityFieldNames [⟨"Id", "A", .ONE_TO_MANY, false⟩]
        ⟨"A", [], []⟩).count "id" ≠ 1 := by
  constructor <;> decide

/-- Claim C10 as amended: every generated DTO declares exactly one field
named id; every generated entity declares exactly one field named id
provided no target-side ONE_TO_MANY relation has a source class whose
camel-cased name is id; the name id is reserved before any attribute is
processed, and an attribute whose parsed name equals id case-insensitively
is dropped from both the entity and the DTO. -/
theorem C10_id_uniqueness (relations : List RelationDefinition)
    (cls : ClassDefinition)
    (h : ∀ r ∈ relations, r.target = cls.name → r.source ≠ cls.name →
         r.type = RelationType.ONE_TO_MANY → toCamelCase r.source ≠ "id") :
    (entityFieldNames relations cls).count "id" = 1
    ∧ (dtoFieldNames cls).count "id" = 1
    ∧ (∀ f ∈ (processAttrs 0 cls.attributes ⟨[], ["id"]⟩).fields,
        jsToLower f.name ≠ "id")
    ∧ (∀ p ∈ dtoScalarFields cls, jsToLower p.name ≠ "id") := by
  have hent := entityMembers_id_not_mem relations cls h
  have hattr := processAttrs_inv cls.attributes 0 ⟨[], ["id"]⟩ (by simp)
    (by intro f hf; simp at hf)
  have hdto := processDtoAttrs_inv cls.attributes 0 ⟨[], ["id"], []⟩ (by simp)
    (by intro p hp; simp at hp)
  refine ⟨?_, ?_, hattr.2, hdto.2⟩
  · simp only [entityFieldNames]
    rw [List.count_cons_self, List.count_eq_zero.2 hent]
  · simp only [dtoFieldNames]
    have hno : "id" ∉ (dtoScalarFields cls).map (fun p => p.name) := by
      intro hmem
      rw [List.mem_map] at hmem
      obtain ⟨p, hp, hname⟩ := hmem
      exact name_ne_id_of_lower (hdto.2 p hp) hname
    rw [List.count_cons_self, List.count_eq_zero.2 hno]

/-- Witness for C10 on a class with an id attribute and an incident
relation. -/
theorem C10_id_uniqueness_witness :
    (entityFieldNames [⟨"Author", "Book", .ONE_TO_MANY, false⟩]
        ⟨"Book", ["id: long", "title: text"], []⟩).count "id" = 1
    ∧ (dtoFieldNames ⟨"Book", ["id: long", "title: text"], []⟩).count "id" = 1
    ∧ (∀ f ∈ (processAttrs 0 ["id: long", "title: text"]
        ⟨[], ["id"]⟩).fields, jsToLower f.name ≠ "id")
    ∧ (∀ p ∈ dtoScalarFields ⟨"Book", ["id: long", "title: text"], []⟩,
        jsToLower p.name ≠ "id") :=
  C10_id_uniqueness [⟨"Author", "Book", .ONE_TO_MANY, false⟩]
    ⟨"Book", ["id: long", "title: text"], []⟩ (by decide)
